import Mathlib

/-!
Shallow embedding of
`src/logging/rtc_event_log/events/rtc_event_audio_send_stream_config.cc`
(WebRTC `RtcEventAudioSendStreamConfig`).

The payload is held through a `std::unique_ptr<rtclog::StreamConfig>`, so
ownership, aliasing and deep-copy claims are modelled with an explicit heap:
addresses are natural numbers, a heap maps addresses to payload values, and a
`unique_ptr` member is an optional address (`none` = null pointer).
Dereferencing a null or dangling pointer is modelled as `Option.none` (the
operation has no defined result).
-/

namespace webrtc

/-- Modelled from the spec: `rtclog::StreamConfig`
(`logging/rtc_event_log/rtc_stream_config.h` is not under src/). The spec
treats the payload as an opaque structured configuration description — e.g.
stream identifiers and a codec list — supporting structural deep copy
(spec sections 3, 6, 8). -/
structure StreamConfig where
  ssrc : Nat
  codecs : List String
deriving DecidableEq, Repr

/-- The store of heap-allocated payload objects: an allocation counter and the
live cells. A heap address (a natural number) identifies one heap-allocated
`rtclog::StreamConfig`; addresses at or above `next` have never been handed
out. -/
structure Heap where
  next : Nat
  cells : List (Nat × StreamConfig)
deriving DecidableEq, Repr

/-- Reading the object at address `a` (`none` when `a` is not live). -/
def Heap.lookup (h : Heap) (a : Nat) : Option StreamConfig :=
  List.lookup a h.cells

/-- `new rtclog::StreamConfig(v)` / `rtc::MakeUnique<rtclog::StreamConfig>(v)`:
allocates a fresh cell holding `v` and returns the new heap and the address. -/
def Heap.alloc (h : Heap) (v : StreamConfig) : Heap × Nat :=
  ({ next := h.next + 1, cells := (h.next, v) :: h.cells }, h.next)

/-- Destruction of the object at address `a` (what `std::unique_ptr`'s
destructor does to a non-null pointee). -/
def Heap.free (h : Heap) (a : Nat) : Heap :=
  { h with cells := h.cells.filter (fun p => p.fst ≠ a) }

/-- Heap well-formedness: every live address was actually handed out by the
allocator, i.e. lies below `next`. -/
def Heap.wf (h : Heap) : Prop :=
  ∀ p ∈ h.cells, p.fst < h.next

instance (h : Heap) : Decidable h.wf := by
  unfold Heap.wf; infer_instance

/-- Modelled from the spec: the closed enumeration `RtcEvent::Type` of event
kinds maintained by the base-class registry
(`logging/rtc_event_log/events/rtc_event.h` is not under src/). The file under
spec contributes exactly the `AudioSendStreamConfig` tag; the other tags stand
for the other variants named in spec section 3. -/
inductive RtcEventType where
  | AudioSendStreamConfig
  | VideoSendStreamConfig
  | RtpPacket
deriving DecidableEq, Repr

/-- The concrete event record: the inherited `RtcEvent::timestamp_us_` field
and the owned `config_` pointer (source lines 20-27; the base-class field is
modelled from the spec: a capture timestamp set once at construction,
spec section 3). -/
structure RtcEventAudioSendStreamConfig where
  timestamp_us_ : Int
  config_ : Option Nat
deriving DecidableEq, Repr

namespace RtcEventAudioSendStreamConfig

/-- The ownership-taking constructor (source lines 20-22):
`config_(std::move(config))`. The base subobject is default-constructed;
modelled from the spec, the default `RtcEvent` constructor records the current
clock `now` as the capture timestamp (spec section 3: "monotonic capture time,
set once at construction"). The caller's pointer is moved, not copied, and the
heap is untouched. -/
def build (h : Heap) (now : Int) (config : Option Nat) :
    Heap × RtcEventAudioSendStreamConfig :=
  (h, { timestamp_us_ := now, config_ := config })

/-- The copy constructor (source lines 24-27):
`RtcEvent(other.timestamp_us_), config_(MakeUnique<StreamConfig>(*other.config_))`.
`*other.config_` dereferences `other.config_` unconditionally; a null or
dangling pointer gives no defined result (`none`). -/
def copyCtor (h : Heap) (other : RtcEventAudioSendStreamConfig) :
    Option (Heap × RtcEventAudioSendStreamConfig) :=
  match other.config_ with
  | none => none
  | some a =>
    match h.lookup a with
    | none => none
    | some v =>
      let p := h.alloc v
      some (p.fst, { timestamp_us_ := other.timestamp_us_, config_ := some p.snd })

/-- `GetType` (source lines 31-33): returns the fixed tag, ignoring the
receiver's state entirely. -/
def GetType (_e : RtcEventAudioSendStreamConfig) : RtcEventType :=
  RtcEventType.AudioSendStreamConfig

/-- `IsConfigEvent` (source lines 35-37): returns `true`, ignoring the
receiver's state entirely. -/
def IsConfigEvent (_e : RtcEventAudioSendStreamConfig) : Bool :=
  true

/-- A call to the const method `GetType` as a state transformer: the result
paired with the receiver's state after the call (the method reads nothing and
writes nothing, so the state is returned as received). -/
def GetTypeCall (e : RtcEventAudioSendStreamConfig) :
    RtcEventType × RtcEventAudioSendStreamConfig :=
  (GetType e, e)

/-- A call to the const method `IsConfigEvent` as a state transformer. -/
def IsConfigEventCall (e : RtcEventAudioSendStreamConfig) :
    Bool × RtcEventAudioSendStreamConfig :=
  (IsConfigEvent e, e)

end RtcEventAudioSendStreamConfig

/-- A `std::unique_ptr<RtcEvent>`: the polymorphic handle returned by `Copy`.
Its dynamic type is one of the concrete variants; `otherEvent` is modelled
from the spec (section 3: other members of the closed set of event kinds, each
with its own fixed tag and classification flag). -/
inductive RtcEventDyn where
  | audioSendStreamConfigEvent (e : RtcEventAudioSendStreamConfig)
  | otherEvent (tag : RtcEventType) (cfgFlag : Bool) (ts : Int)
deriving DecidableEq, Repr

/-- Virtual dispatch of `GetType` through the polymorphic handle. -/
def RtcEventDyn.GetType : RtcEventDyn → RtcEventType
  | .audioSendStreamConfigEvent e => e.GetType
  | .otherEvent tag _ _ => tag

/-- Virtual dispatch of `IsConfigEvent` through the polymorphic handle. -/
def RtcEventDyn.IsConfigEvent : RtcEventDyn → Bool
  | .audioSendStreamConfigEvent e => e.IsConfigEvent
  | .otherEvent _ cfgFlag _ => cfgFlag

/-- The `timestamp_us_` carried by the event behind the polymorphic handle. -/
def RtcEventDyn.timestamp : RtcEventDyn → Int
  | .audioSendStreamConfigEvent e => e.timestamp_us_
  | .otherEvent _ _ ts => ts

namespace RtcEventAudioSendStreamConfig

/-- `Copy` (source lines 39-42):
`auto config_copy = MakeUnique<StreamConfig>(*config_);` — a local deep copy,
never read afterwards, destroyed when the function returns — then
`return WrapUnique<RtcEvent>(new RtcEventAudioSendStreamConfig(*this));`.
Both `*config_` here and `*other.config_` inside the copy constructor
dereference the pointer unconditionally. -/
def Copy (h : Heap) (e : RtcEventAudioSendStreamConfig) :
    Option (Heap × RtcEventDyn) :=
  match e.config_ with
  | none => none
  | some a =>
    match h.lookup a with
    | none => none
    | some v =>
      let p := h.alloc v
      match copyCtor p.fst e with
      | none => none
      | some (h2, d) =>
        some (h2.free p.snd, RtcEventDyn.audioSendStreamConfigEvent d)

/-- The destructor (source line 29, `= default`): member-wise destruction of
`config_`, freeing the pointee when the pointer is non-null. -/
def destruct (h : Heap) (e : RtcEventAudioSendStreamConfig) : Heap :=
  match e.config_ with
  | none => h
  | some a => h.free a

/-- The contents of the payload owned by `e`, read through `e`'s pointer. -/
def payloadContent (h : Heap) (e : RtcEventAudioSendStreamConfig) :
    Option StreamConfig :=
  match e.config_ with
  | none => none
  | some a => h.lookup a

end RtcEventAudioSendStreamConfig

/-! ## Heap lemmas -/

theorem List.lookup_filter_ne {a b : Nat} (l : List (Nat × StreamConfig))
    (hne : a ≠ b) :
    List.lookup a (l.filter fun p => p.fst ≠ b) = List.lookup a l := by
  induction l with
  | nil => rfl
  | cons p t ih =>
    by_cases hp : p.fst = b
    · have hpa : (a == p.fst) = false := by simp [hp, hne]
      have h1 : (p :: t).filter (fun p => p.fst ≠ b) =
          t.filter (fun p => p.fst ≠ b) := by
        simp [List.filter_cons, hp]
      rw [h1, ih]
      simp [List.lookup, hpa]
    · have h1 : (p :: t).filter (fun p => p.fst ≠ b) =
          p :: t.filter (fun p => p.fst ≠ b) := by
        simp [List.filter_cons, hp]
      rw [h1]
      by_cases hpa : a = p.fst
      · simp [List.lookup, hpa]
      · have hpa' : (a == p.fst) = false := by simp [hpa]
        rw [List.lookup, List.lookup, hpa', ih]

theorem List.lookup_lt_of_bound {n : Nat} {l : List (Nat × StreamConfig)}
    (hb : ∀ p ∈ l, p.fst < n) {a : Nat} {v : StreamConfig}
    (hv : List.lookup a l = some v) : a < n := by
  induction l with
  | nil => simp [List.lookup] at hv
  | cons p t ih =>
    by_cases hpa : a = p.fst
    · exact lt_of_eq_of_lt hpa (hb p (List.mem_cons_self p t))
    · have hpa' : (a == p.fst) = false := by simp [hpa]
      simp [List.lookup, hpa'] at hv
      exact ih (fun q hq => hb q (List.mem_cons_of_mem p hq)) hv

theorem Heap.lookup_alloc_self (h : Heap) (v : StreamConfig) :
    (h.alloc v).fst.lookup (h.alloc v).snd = some v := by
  simp [Heap.alloc, Heap.lookup, List.lookup]

theorem Heap.lookup_alloc_ne (h : Heap) (v : StreamConfig) {a : Nat}
    (hne : a ≠ h.next) :
    (h.alloc v).fst.lookup a = h.lookup a := by
  have hb : (a == h.next) = false := by simp [hne]
  simp [Heap.alloc, Heap.lookup, List.lookup, hb]

theorem Heap.lookup_free_ne (h : Heap) {a b : Nat} (hne : a ≠ b) :
    (h.free b).lookup a = h.lookup a :=
  List.lookup_filter_ne h.cells hne

theorem Heap.lookup_lt_next {h : Heap} (hwf : h.wf) {a : Nat}
    {v : StreamConfig} (hv : h.lookup a = some v) : a < h.next :=
  List.lookup_lt_of_bound hwf hv

theorem Heap.wf_alloc {h : Heap} (hwf : h.wf) (v : StreamConfig) :
    (h.alloc v).fst.wf := by
  intro p hp
  rcases List.mem_cons.mp hp with hp | hp
  · simp [hp, Heap.alloc]
  · exact Nat.lt_succ_of_lt (hwf p hp)

theorem Heap.wf_free {h : Heap} (hwf : h.wf) (b : Nat) : (h.free b).wf :=
  fun p hp => hwf p (List.mem_of_mem_filter hp)

/-! ## Computation lemmas for the two copy paths -/

namespace RtcEventAudioSendStreamConfig

theorem copyCtor_eq {h : Heap} {e : RtcEventAudioSendStreamConfig} {a : Nat}
    {v : StreamConfig} (ha : e.config_ = some a) (hv : h.lookup a = some v) :
    copyCtor h e =
      some ((h.alloc v).fst,
        { timestamp_us_ := e.timestamp_us_, config_ := some h.next }) := by
  simp [copyCtor, ha, hv, Heap.alloc]

theorem Copy_eq {h : Heap} {e : RtcEventAudioSendStreamConfig} {a : Nat}
    {v : StreamConfig} (hwf : h.wf) (ha : e.config_ = some a)
    (hv : h.lookup a = some v) :
    Copy h e =
      some ((((h.alloc v).fst.alloc v).fst.free h.next,
        RtcEventDyn.audioSendStreamConfigEvent
          { timestamp_us_ := e.timestamp_us_, config_ := some (h.next + 1) })) := by
  have halt : a < h.next := Heap.lookup_lt_next hwf hv
  have hv1 : (h.alloc v).fst.lookup a = some v := by
    rw [Heap.lookup_alloc_ne h v (Nat.ne_of_lt halt)]
    exact hv
  simp only [Copy, ha, hv]
  rw [copyCtor_eq ha hv1]
  simp [Heap.alloc]

theorem Copy_success_cases {h h' : Heap} {x : RtcEventAudioSendStreamConfig}
    {dyn : RtcEventDyn} (hwf : h.wf) (hc : Copy h x = some (h', dyn)) :
    ∃ a v, x.config_ = some a ∧ h.lookup a = some v ∧
      h' = ((h.alloc v).fst.alloc v).fst.free h.next ∧
      dyn = RtcEventDyn.audioSendStreamConfigEvent
        { timestamp_us_ := x.timestamp_us_, config_ := some (h.next + 1) } := by
  cases hx : x.config_ with
  | none => simp [Copy, hx] at hc
  | some a =>
    cases hl : h.lookup a with
    | none => simp [Copy, hx, hl] at hc
    | some v =>
      rw [Copy_eq hwf hx hl] at hc
      have h12 := Option.some.inj hc
      exact ⟨a, v, rfl, hl, (congrArg Prod.fst h12).symm,
        (congrArg Prod.snd h12).symm⟩

theorem Copy_next_eq {h h' : Heap} {x : RtcEventAudioSendStreamConfig}
    {dyn : RtcEventDyn} (hwf : h.wf) (hc : Copy h x = some (h', dyn)) :
    h'.next = h.next + 2 := by
  obtain ⟨a, v, -, -, hh, -⟩ := Copy_success_cases hwf hc
  subst hh
  rfl

theorem Copy_wf {h h' : Heap} {x : RtcEventAudioSendStreamConfig}
    {dyn : RtcEventDyn} (hwf : h.wf) (hc : Copy h x = some (h', dyn)) :
    h'.wf := by
  obtain ⟨a, v, -, -, hh, -⟩ := Copy_success_cases hwf hc
  subst hh
  exact Heap.wf_free (Heap.wf_alloc (Heap.wf_alloc hwf v) v) h.next

theorem Copy_frame {h h' : Heap} {x : RtcEventAudioSendStreamConfig}
    {dyn : RtcEventDyn} (hwf : h.wf) (hc : Copy h x = some (h', dyn))
    {b : Nat} (hblt : b < h.next) : h'.lookup b = h.lookup b := by
  obtain ⟨a, v, -, -, hh, -⟩ := Copy_success_cases hwf hc
  subst hh
  have h1 : b ≠ h.next := Nat.ne_of_lt hblt
  have h2 : b ≠ (h.alloc v).fst.next := Nat.ne_of_lt (Nat.lt_succ_of_lt hblt)
  rw [Heap.lookup_free_ne _ h1, Heap.lookup_alloc_ne _ _ h2,
    Heap.lookup_alloc_ne _ _ h1]

end RtcEventAudioSendStreamConfig

/-! ## Claim theorems -/

open RtcEventAudioSendStreamConfig in
/-- C1: for every `RtcEventAudioSendStreamConfig` `e` with a non-null (and
live) payload, the duplicate `d = e.Copy()` observationally equals `e`: same
`GetType`, same `IsConfigEvent`, the original capture timestamp (not the time
of duplication), and a structurally equal payload. -/
theorem copy_preserves_observables (h : Heap)
    (e : RtcEventAudioSendStreamConfig) (a : Nat) (v : StreamConfig)
    (hwf : h.wf) (ha : e.config_ = some a) (hv : h.lookup a = some v) :
    ∃ h' d, Copy h e = some (h', RtcEventDyn.audioSendStreamConfigEvent d) ∧
      GetType d = GetType e ∧
      IsConfigEvent d = IsConfigEvent e ∧
      d.timestamp_us_ = e.timestamp_us_ ∧
      payloadContent h' d = payloadContent h e := by
  refine ⟨_, _, Copy_eq hwf ha hv, rfl, rfl, rfl, ?_⟩
  have hne1 : (h.next + 1 : Nat) ≠ h.next := Nat.succ_ne_self h.next
  have hstep :
      (((h.alloc v).fst.alloc v).fst.free h.next).lookup (h.next + 1) =
        some v := by
    rw [Heap.lookup_free_ne _ hne1]
    exact Heap.lookup_alloc_self (h.alloc v).fst v
  simp [payloadContent, ha, hv, hstep]

/-- Witness for C1 at a concrete heap, payload and event, per the spec's
scenario: stream id 42, codec list `["opus"]`, timestamp 1000. -/
theorem copy_preserves_observables_witness :
    (Heap.mk 1 [(0, StreamConfig.mk 42 ["opus"])]).wf ∧
    (RtcEventAudioSendStreamConfig.mk 1000 (some 0)).config_ = some 0 ∧
    (Heap.mk 1 [(0, StreamConfig.mk 42 ["opus"])]).lookup 0 =
      some (StreamConfig.mk 42 ["opus"]) ∧
    ∃ h' d,
      RtcEventAudioSendStreamConfig.Copy
          (Heap.mk 1 [(0, StreamConfig.mk 42 ["opus"])])
          (RtcEventAudioSendStreamConfig.mk 1000 (some 0)) =
        some (h', RtcEventDyn.audioSendStreamConfigEvent d) ∧
      RtcEventAudioSendStreamConfig.GetType d =
        RtcEventAudioSendStreamConfig.GetType
          (RtcEventAudioSendStreamConfig.mk 1000 (some 0)) ∧
      RtcEventAudioSendStreamConfig.IsConfigEvent d =
        RtcEventAudioSendStreamConfig.IsConfigEvent
          (RtcEventAudioSendStreamConfig.mk 1000 (some 0)) ∧
      d.timestamp_us_ =
        (RtcEventAudioSendStreamConfig.mk 1000 (some 0)).timestamp_us_ ∧
      RtcEventAudioSendStreamConfig.payloadContent h' d =
        RtcEventAudioSendStreamConfig.payloadContent
          (Heap.mk 1 [(0, StreamConfig.mk 42 ["opus"])])
          (RtcEventAudioSendStreamConfig.mk 1000 (some 0)) :=
  ⟨by decide, rfl, by decide,
    copy_preserves_observables _ _ 0 (StreamConfig.mk 42 ["opus"])
      (by decide) rfl (by decide)⟩

open RtcEventAudioSendStreamConfig in
/-- C3: every instance reports the fixed tag
`RtcEventType.AudioSendStreamConfig` and classifies as a configuration event,
and neither result depends on the instance (hence not on payload contents):
any two instances agree. -/
theorem getType_isConfigEvent_fixed (e e' : RtcEventAudioSendStreamConfig) :
    GetType e = RtcEventType.AudioSendStreamConfig ∧
    IsConfigEvent e = true ∧
    GetType e = GetType e' ∧
    IsConfigEvent e = IsConfigEvent e' :=
  ⟨rfl, rfl, rfl, rfl⟩

open RtcEventAudioSendStreamConfig in
/-- C2: the duplicate owns a fresh payload, never an alias of the original's:
the two payload pointers differ, destroying either event leaves the other's
payload contents unchanged, and running `Copy` on either leaves the other's
payload contents unchanged. -/
theorem copy_deep_independence (h : Heap) (e : RtcEventAudioSendStreamConfig)
    (a : Nat) (v : StreamConfig) (hwf : h.wf) (ha : e.config_ = some a)
    (hv : h.lookup a = some v) :
    ∃ h' d, Copy h e = some (h', RtcEventDyn.audioSendStreamConfigEvent d) ∧
      d.config_ ≠ e.config_ ∧
      payloadContent (destruct h' e) d = payloadContent h' d ∧
      payloadContent (destruct h' d) e = payloadContent h' e ∧
      (∀ h2 dyn2, Copy h' d = some (h2, dyn2) →
        payloadContent h2 e = payloadContent h' e) ∧
      (∀ h2 dyn2, Copy h' e = some (h2, dyn2) →
        payloadContent h2 d = payloadContent h' d) := by
  have halt : a < h.next := Heap.lookup_lt_next hwf hv
  have hcopy := Copy_eq hwf ha hv
  have hwf' := Copy_wf hwf hcopy
  have hnx := Copy_next_eq hwf hcopy
  have hne2 : (h.next + 1 : Nat) ≠ a := by omega
  have hne3 : a ≠ h.next + 1 := by omega
  have hba : a < h.next + 2 := by omega
  have hbd : h.next + 1 < h.next + 2 := by omega
  refine ⟨_, _, hcopy, ?_, ?_, ?_, ?_, ?_⟩
  · rw [ha]
    show some (h.next + 1) ≠ some a
    simp only [ne_eq, Option.some.injEq]
    exact hne2
  · simp only [destruct, ha, payloadContent]
    exact Heap.lookup_free_ne _ hne2
  · simp only [destruct, payloadContent, ha]
    exact Heap.lookup_free_ne _ hne3
  · intro h2 dyn2 hc2
    simp only [payloadContent, ha]
    exact Copy_frame hwf' hc2 (hnx.symm ▸ hba)
  · intro h2 dyn2 hc2
    simp only [payloadContent]
    exact Copy_frame hwf' hc2 (hnx.symm ▸ hbd)

open RtcEventAudioSendStreamConfig in
/-- Witness for C2 at the concrete heap and event of the spec scenario. -/
theorem copy_deep_independence_witness :
    (Heap.mk 1 [(0, StreamConfig.mk 42 ["opus"])]).wf ∧
    (RtcEventAudioSendStreamConfig.mk 1000 (some 0)).config_ = some 0 ∧
    (Heap.mk 1 [(0, StreamConfig.mk 42 ["opus"])]).lookup 0 =
      some (StreamConfig.mk 42 ["opus"]) ∧
    ∃ h' d,
      Copy (Heap.mk 1 [(0, StreamConfig.mk 42 ["opus"])])
          (RtcEventAudioSendStreamConfig.mk 1000 (some 0)) =
        some (h', RtcEventDyn.audioSendStreamConfigEvent d) ∧
      d.config_ ≠ (RtcEventAudioSendStreamConfig.mk 1000 (some 0)).config_ ∧
      payloadContent (destruct h' (RtcEventAudioSendStreamConfig.mk 1000 (some 0))) d =
        payloadContent h' d ∧
      payloadContent (destruct h' d) (RtcEventAudioSendStreamConfig.mk 1000 (some 0)) =
        payloadContent h' (RtcEventAudioSendStreamConfig.mk 1000 (some 0)) ∧
      (∀ h2 dyn2, Copy h' d = some (h2, dyn2) →
        payloadContent h2 (RtcEventAudioSendStreamConfig.mk 1000 (some 0)) =
          payloadContent h' (RtcEventAudioSendStreamConfig.mk 1000 (some 0))) ∧
      (∀ h2 dyn2, Copy h' (RtcEventAudioSendStreamConfig.mk 1000 (some 0)) =
          some (h2, dyn2) →
        payloadContent h2 d = payloadContent h' d) :=
  ⟨by decide, rfl, by decide,
    copy_deep_independence _ _ 0 (StreamConfig.mk 42 ["opus"])
      (by decide) rfl (by decide)⟩

open RtcEventAudioSendStreamConfig in
/-- C4: `Copy` returns a polymorphic handle whose dynamic type is
`RtcEventAudioSendStreamConfig`, and the event behind the handle is exactly
the one produced by the copy constructor (the deep-copy construction path) on
the intermediate heap; the final heap is that heap after the local
`config_copy` is destroyed. -/
theorem copy_dynamic_type_via_ctor (h : Heap)
    (e : RtcEventAudioSendStreamConfig) (a : Nat) (v : StreamConfig)
    (hwf : h.wf) (ha : e.config_ = some a) (hv : h.lookup a = some v) :
    ∃ h' d hmid,
      Copy h e = some (h', RtcEventDyn.audioSendStreamConfigEvent d) ∧
      copyCtor (h.alloc v).fst e = some (hmid, d) ∧
      h' = hmid.free h.next := by
  have halt : a < h.next := Heap.lookup_lt_next hwf hv
  have hv1 : (h.alloc v).fst.lookup a = some v := by
    rw [Heap.lookup_alloc_ne h v (Nat.ne_of_lt halt)]
    exact hv
  exact ⟨_, _, _, Copy_eq hwf ha hv, copyCtor_eq ha hv1, rfl⟩

open RtcEventAudioSendStreamConfig in
/-- Witness for C4 at the concrete heap and event of the spec scenario. -/
theorem copy_dynamic_type_via_ctor_witness :
    (Heap.mk 1 [(0, StreamConfig.mk 42 ["opus"])]).wf ∧
    (RtcEventAudioSendStreamConfig.mk 1000 (some 0)).config_ = some 0 ∧
    (Heap.mk 1 [(0, StreamConfig.mk 42 ["opus"])]).lookup 0 =
      some (StreamConfig.mk 42 ["opus"]) ∧
    ∃ h' d hmid,
      Copy (Heap.mk 1 [(0, StreamConfig.mk 42 ["opus"])])
          (RtcEventAudioSendStreamConfig.mk 1000 (some 0)) =
        some (h', RtcEventDyn.audioSendStreamConfigEvent d) ∧
      copyCtor
          ((Heap.mk 1 [(0, StreamConfig.mk 42 ["opus"])]).alloc
            (StreamConfig.mk 42 ["opus"])).fst
          (RtcEventAudioSendStreamConfig.mk 1000 (some 0)) =
        some (hmid, d) ∧
      h' = hmid.free (Heap.mk 1 [(0, StreamConfig.mk 42 ["opus"])]).next :=
  ⟨by decide, rfl, by decide,
    copy_dynamic_type_via_ctor _ _ 0 (StreamConfig.mk 42 ["opus"])
      (by decide) rfl (by decide)⟩

open RtcEventAudioSendStreamConfig in
/-- C5: `GetType` and `IsConfigEvent` are pure and idempotent: a call leaves
the receiver exactly as it was, and a second call on the post-call receiver
returns the same result as the first. -/
theorem accessors_pure_idempotent (e : RtcEventAudioSendStreamConfig) :
    (GetTypeCall e).snd = e ∧
    (IsConfigEventCall e).snd = e ∧
    (GetTypeCall (GetTypeCall e).snd).fst = (GetTypeCall e).fst ∧
    (IsConfigEventCall (IsConfigEventCall e).snd).fst =
      (IsConfigEventCall e).fst :=
  ⟨rfl, rfl, rfl, rfl⟩

open RtcEventAudioSendStreamConfig in
/-- C6: immutability after construction: the accessor calls return the
receiver exactly as received, and `Copy` — the only payload-touching
operation — leaves the receiver's record and its payload contents in the heap
unchanged; the type exposes no mutating operation. -/
theorem operations_preserve_state (h : Heap)
    (e : RtcEventAudioSendStreamConfig) (a : Nat) (v : StreamConfig)
    (hwf : h.wf) (ha : e.config_ = some a) (hv : h.lookup a = some v) :
    (GetTypeCall e).snd = e ∧
    (IsConfigEventCall e).snd = e ∧
    ∃ h' dyn, Copy h e = some (h', dyn) ∧
      payloadContent h' e = payloadContent h e := by
  refine ⟨rfl, rfl, _, _, Copy_eq hwf ha hv, ?_⟩
  have halt : a < h.next := Heap.lookup_lt_next hwf hv
  simp only [payloadContent, ha]
  exact Copy_frame hwf (Copy_eq hwf ha hv) halt

open RtcEventAudioSendStreamConfig in
/-- Witness for C6 at the concrete heap and event of the spec scenario. -/
theorem operations_preserve_state_witness :
    (Heap.mk 1 [(0, StreamConfig.mk 42 ["opus"])]).wf ∧
    (RtcEventAudioSendStreamConfig.mk 1000 (some 0)).config_ = some 0 ∧
    (Heap.mk 1 [(0, StreamConfig.mk 42 ["opus"])]).lookup 0 =
      some (StreamConfig.mk 42 ["opus"]) ∧
    ((GetTypeCall (RtcEventAudioSendStreamConfig.mk 1000 (some 0))).snd =
      RtcEventAudioSendStreamConfig.mk 1000 (some 0) ∧
    (IsConfigEventCall (RtcEventAudioSendStreamConfig.mk 1000 (some 0))).snd =
      RtcEventAudioSendStreamConfig.mk 1000 (some 0) ∧
    ∃ h' dyn,
      Copy (Heap.mk 1 [(0, StreamConfig.mk 42 ["opus"])])
          (RtcEventAudioSendStreamConfig.mk 1000 (some 0)) =
        some (h', dyn) ∧
      payloadContent h' (RtcEventAudioSendStreamConfig.mk 1000 (some 0)) =
        payloadContent (Heap.mk 1 [(0, StreamConfig.mk 42 ["opus"])])
          (RtcEventAudioSendStreamConfig.mk 1000 (some 0))) :=
  ⟨by decide, rfl, by decide,
    operations_preserve_state _ _ 0 (StreamConfig.mk 42 ["opus"])
      (by decide) rfl (by decide)⟩

open RtcEventAudioSendStreamConfig in
/-- C7: the ownership-taking constructor transfers the caller's payload
pointer into the event unchanged: the heap is untouched (nothing is copied or
altered), the stored pointer is exactly the caller's, the capture timestamp is
the construction-time clock, and the event's payload reads back as the
caller's object. -/
theorem ctor_transfers_payload (h : Heap) (now : Int) (a : Nat) :
    (build h now (some a)).fst = h ∧
    (build h now (some a)).snd.config_ = some a ∧
    (build h now (some a)).snd.timestamp_us_ = now ∧
    payloadContent (build h now (some a)).fst (build h now (some a)).snd =
      h.lookup a :=
  ⟨rfl, rfl, rfl, rfl⟩

open RtcEventAudioSendStreamConfig in
/-- C8: no validation, no recoverable error: for a payload of arbitrary
contents `v`, construction is total and succeeds, both accessors are total
and succeed, and `Copy` succeeds with a result; allocation never fails in the
model (allocation failure is fatal in the source, never an error result). -/
theorem no_payload_validation (h : Heap) (now : Int) (v : StreamConfig)
    (hwf : h.wf) :
    ∃ e, (build (h.alloc v).fst now (some (h.alloc v).snd)).snd = e ∧
      GetType e = RtcEventType.AudioSendStreamConfig ∧
      IsConfigEvent e = true ∧
      (Copy (h.alloc v).fst e).isSome = true := by
  refine ⟨_, rfl, rfl, rfl, ?_⟩
  rw [Copy_eq (Heap.wf_alloc hwf v) rfl (Heap.lookup_alloc_self h v)]
  rfl

open RtcEventAudioSendStreamConfig in
/-- Witness for C8: an empty heap, an arbitrary concrete payload. -/
theorem no_payload_validation_witness :
    (Heap.mk 0 []).wf ∧
    ∃ e,
      (build ((Heap.mk 0 []).alloc (StreamConfig.mk 7 [])).fst 5
          (some ((Heap.mk 0 []).alloc (StreamConfig.mk 7 [])).snd)).snd = e ∧
      GetType e = RtcEventType.AudioSendStreamConfig ∧
      IsConfigEvent e = true ∧
      (Copy ((Heap.mk 0 []).alloc (StreamConfig.mk 7 [])).fst e).isSome =
        true :=
  ⟨by decide, no_payload_validation (Heap.mk 0 []) 5 (StreamConfig.mk 7 [])
    (by decide)⟩

open RtcEventAudioSendStreamConfig in
/-- C9: `Copy` is observationally equivalent to invoking the copy constructor
alone: both succeed, and the two results agree on type, config-flag,
timestamp and payload contents — the local `config_copy` allocated at the
start of `Copy` is never read and is destroyed before return, so it has no
effect on the returned event's observable state. -/
theorem copy_equiv_copyCtor (h : Heap) (e : RtcEventAudioSendStreamConfig)
    (a : Nat) (v : StreamConfig) (hwf : h.wf) (ha : e.config_ = some a)
    (hv : h.lookup a = some v) :
    ∃ h1 d1 h2 d2,
      Copy h e = some (h1, RtcEventDyn.audioSendStreamConfigEvent d1) ∧
      copyCtor h e = some (h2, d2) ∧
      d1.timestamp_us_ = d2.timestamp_us_ ∧
      GetType d1 = GetType d2 ∧
      IsConfigEvent d1 = IsConfigEvent d2 ∧
      payloadContent h1 d1 = payloadContent h2 d2 := by
  refine ⟨_, _, _, _, Copy_eq hwf ha hv, copyCtor_eq ha hv, rfl, rfl, rfl, ?_⟩
  have hne1 : (h.next + 1 : Nat) ≠ h.next := Nat.succ_ne_self h.next
  have hstep :
      (((h.alloc v).fst.alloc v).fst.free h.next).lookup (h.next + 1) =
        some v := by
    rw [Heap.lookup_free_ne _ hne1]
    exact Heap.lookup_alloc_self (h.alloc v).fst v
  have hstep2 : (h.alloc v).fst.lookup h.next = some v :=
    Heap.lookup_alloc_self h v
  simp [payloadContent, hstep, hstep2]

open RtcEventAudioSendStreamConfig in
/-- Witness for C9 at the concrete heap and event of the spec scenario. -/
theorem copy_equiv_copyCtor_witness :
    (Heap.mk 1 [(0, StreamConfig.mk 42 ["opus"])]).wf ∧
    ∃ h1 d1 h2 d2,
      Copy (Heap.mk 1 [(0, StreamConfig.mk 42 ["opus"])])
          (RtcEventAudioSendStreamConfig.mk 1000 (some 0)) =
        some (h1, RtcEventDyn.audioSendStreamConfigEvent d1) ∧
      copyCtor (Heap.mk 1 [(0, StreamConfig.mk 42 ["opus"])])
          (RtcEventAudioSendStreamConfig.mk 1000 (some 0)) =
        some (h2, d2) ∧
      d1.timestamp_us_ = d2.timestamp_us_ ∧
      GetType d1 = GetType d2 ∧
      IsConfigEvent d1 = IsConfigEvent d2 ∧
      payloadContent h1 d1 = payloadContent h2 d2 :=
  ⟨by decide,
    copy_equiv_copyCtor _ _ 0 (StreamConfig.mk 42 ["opus"])
      (by decide) rfl (by decide)⟩

open RtcEventAudioSendStreamConfig in
/-- C10: neither constructor null-checks: construction from a null payload
succeeds and stores the null pointer, but `Copy` and the copy constructor
dereference it unconditionally (no defined result), so the `Copy` guarantees
hold under the precondition of a non-null, live payload — and under that
precondition the dereference is safe and `Copy` is defined. -/
theorem null_payload_unchecked (h : Heap) (now : Int)
    (e : RtcEventAudioSendStreamConfig) (a : Nat) (v : StreamConfig)
    (hwf : h.wf) (ha : e.config_ = some a) (hv : h.lookup a = some v) :
    (build h now none).snd.config_ = none ∧
    Copy h (build h now none).snd = none ∧
    copyCtor h (build h now none).snd = none ∧
    (Copy h e).isSome = true := by
  refine ⟨rfl, rfl, rfl, ?_⟩
  rw [Copy_eq hwf ha hv]
  rfl

open RtcEventAudioSendStreamConfig in
/-- Witness for C10 at the concrete heap and event of the spec scenario. -/
theorem null_payload_unchecked_witness :
    (Heap.mk 1 [(0, StreamConfig.mk 42 ["opus"])]).wf ∧
    ((build (Heap.mk 1 [(0, StreamConfig.mk 42 ["opus"])]) 7 none).snd.config_ =
      none ∧
    Copy (Heap.mk 1 [(0, StreamConfig.mk 42 ["opus"])])
        (build (Heap.mk 1 [(0, StreamConfig.mk 42 ["opus"])]) 7 none).snd =
      none ∧
    copyCtor (Heap.mk 1 [(0, StreamConfig.mk 42 ["opus"])])
        (build (Heap.mk 1 [(0, StreamConfig.mk 42 ["opus"])]) 7 none).snd =
      none ∧
    (Copy (Heap.mk 1 [(0, StreamConfig.mk 42 ["opus"])])
        (RtcEventAudioSendStreamConfig.mk 1000 (some 0))).isSome = true) :=
  ⟨by decide,
    null_payload_unchecked _ 7 _ 0 (StreamConfig.mk 42 ["opus"])
      (by decide) rfl (by decide)⟩

end webrtc
